import Mathlib

/-!
Shallow embedding of the microdrop audio capture and preprocessing pipeline
(`src/audio/mod.rs`, `src/audio/processing.rs`, `src/error.rs`) and proofs of
the specification claims about it.

Conventions of the embedding:
* `f32` samples are embedded as `ℚ` (exact arithmetic; the claims under
  verification are structural and hold frame-by-frame in exact arithmetic).
* Rust methods on `&mut self` become functions `State → Result × State`;
  fallible results use `Except MicrodropError`.
* The platform audio layer (cpal) and the resampling library (rubato) are
  external collaborators; they are modelled by explicit environment records
  (`Host`, `AudioEnv`) and an abstract deterministic library model
  (`RubatoModel`), matching the narrow interfaces in the specification.
-/

/-- Error enum from `src/error.rs`. Message payloads are embedded as the
leading text of the Rust format strings. -/
inductive MicrodropError where
  | Unimplemented (feature : String)
  | Audio (msg : String)
  | Transcription (msg : String)
  | ModelLoad (msg : String)
  | ModelDownload (msg : String)
  | ModelCache (msg : String)
  | ModelRegistry (msg : String)
  | Config (msg : String)
deriving DecidableEq, Repr

/-- Size of the capture ring buffer, `RING_BUFFER_SIZE` in `src/audio/mod.rs`
(1024 * 1024 samples). -/
def RING_BUFFER_SIZE : Nat := 1024 * 1024

/-- Model of `ringbuf::HeapRb<f32>`: a bounded buffer with a fixed capacity
and current contents. The engine allocates one per capture session. -/
structure CaptureBuffer where
  capacity : Nat
  data : List ℚ
deriving DecidableEq, Repr

/-- Construction `HeapRb::<f32>::new(cap)`: an empty buffer of the given
capacity. -/
def CaptureBuffer.new (cap : Nat) : CaptureBuffer := ⟨cap, []⟩

/-- Model of a `cpal::Stream` handle. The handle itself carries no data the
verified claims depend on; dropping it tears the stream down. -/
inductive AudioStream where
  | mk
deriving DecidableEq, Repr

/-- Model of `cpal::SupportedStreamConfigRange`: the fields the engine reads.
`configure_stream` only inspects `max_sample_rate`. -/
structure SupportedConfigRange where
  channels : Nat
  min_sample_rate : Nat
  max_sample_rate : Nat
deriving DecidableEq, Repr

/-- Model of `cpal::StreamConfig` (the negotiated configuration). -/
structure StreamConfig where
  channels : Nat
  sample_rate : Nat
deriving DecidableEq, Repr

/-- Combination of `SupportedStreamConfigRange::with_max_sample_rate` and the
`.into()` conversion to `StreamConfig` used in `configure_stream`: the range
pinned at its maximum sample rate. -/
def SupportedConfigRange.with_max_sample_rate (c : SupportedConfigRange) : StreamConfig :=
  ⟨c.channels, c.max_sample_rate⟩

/-- Model of a `cpal::Device`: a display name and the supported input
configuration ranges the platform reports for it. -/
structure AudioDevice where
  name : String
  configs : List SupportedConfigRange
deriving DecidableEq, Repr

/-- Model of a `cpal::Host`: the input devices it enumerates and the system
default input device, if any. -/
structure Host where
  input_devices : List AudioDevice
  default_input : Option AudioDevice
deriving DecidableEq, Repr

/-- Environment oracle for the fallible platform calls made by
`start_capture`: whether `build_input_stream` and `Stream::play` succeed. -/
structure AudioEnv where
  build_ok : Bool
  play_ok : Bool
deriving DecidableEq, Repr

/-- The `AudioEngine` struct from `src/audio/mod.rs`: host handle plus four
independently optional fields for device, negotiated config, live stream and
capture ring buffer. -/
structure AudioEngine where
  host : Host
  device : Option AudioDevice
  config : Option StreamConfig
  stream : Option AudioStream
  ring_buffer : Option CaptureBuffer
deriving DecidableEq, Repr

/-- `AudioEngine::new`: all session fields start empty. -/
def AudioEngine.new (h : Host) : AudioEngine :=
  ⟨h, none, none, none, none⟩

/-- The `AudioStats` struct. `Duration` is embedded as a rational number of
seconds. -/
structure AudioStats where
  duration : ℚ
  sample_count : Nat
  sample_rate : Nat
  channels : Nat
  format : String
deriving DecidableEq, Repr

/-- `AudioEngine::list_devices`: the device names in enumeration order. The
platform-enumeration failure path lives in the host model and is not needed
by any claim, so the host model always answers. -/
def AudioEngine.list_devices (e : AudioEngine) : Except MicrodropError (List String) :=
  .ok (e.host.input_devices.map (fun d => d.name))

/-- `AudioEngine::select_device`: exact-name match among input devices when a
name is given, otherwise the system default device. -/
def AudioEngine.select_device (e : AudioEngine) (device_name : Option String) :
    Except MicrodropError Unit × AudioEngine :=
  match device_name with
  | some n =>
    match e.host.input_devices.find? (fun d => d.name == n) with
    | some d => (.ok (), { e with device := some d })
    | none => (.error (.Audio "Audio device not found"), e)
  | none =>
    match e.host.default_input with
    | some d => (.ok (), { e with device := some d })
    | none => (.error (.Audio "No default input device available"), e)

/-- The selection loop inside `AudioEngine::configure_stream`: walk the
supported ranges keeping the first configuration whose max sample rate is at
least 16000 and strictly greater than the best rate seen so far. -/
def selectLoop : List SupportedConfigRange → Option StreamConfig → Nat → Option StreamConfig
  | [], best, _ => best
  | c :: rest, best, best_sample_rate =>
    if 16000 ≤ c.max_sample_rate ∧ best_sample_rate < c.max_sample_rate then
      selectLoop rest (some c.with_max_sample_rate) c.max_sample_rate
    else
      selectLoop rest best best_sample_rate

/-- `AudioEngine::configure_stream`: requires a selected device; picks the
supported configuration with the highest max sample rate `≥ 16000` (first seen
wins ties via the strict comparison) and stores it pinned at that rate. -/
def AudioEngine.configure_stream (e : AudioEngine) :
    Except MicrodropError Unit × AudioEngine :=
  match e.device with
  | none => (.error (.Audio "No device selected"), e)
  | some d =>
    match selectLoop d.configs none 0 with
    | none => (.error (.Audio "No suitable audio configuration found"), e)
    | some cfg => (.ok (), { e with config := some cfg })

/-- The data callback installed by `AudioEngine::build_stream`. The source
body only logs the received sample count (comment: for MVP, just count
samples, no actual storage), so the buffer is returned unchanged and the
delivered block is discarded. -/
def stream_data_callback (_data : List ℚ) (buf : CaptureBuffer) : CaptureBuffer :=
  buf

/-- `AudioEngine::build_stream`: builds the input stream with the logging
callback; fallibility of the platform call comes from the environment. -/
def AudioEngine.build_stream (env : AudioEnv) :
    Except MicrodropError AudioStream :=
  if env.build_ok then .ok AudioStream.mk
  else .error (.Audio "Failed to build input stream")

/-- `AudioEngine::start_capture`: requires device and config; allocates a
fresh ring buffer (assigned to the engine before the stream is built, as in
the source), builds and plays the stream. -/
def AudioEngine.start_capture (env : AudioEnv) (e : AudioEngine) :
    Except MicrodropError Unit × AudioEngine :=
  match e.device with
  | none => (.error (.Audio "No device selected"), e)
  | some _ =>
    match e.config with
    | none => (.error (.Audio "No configuration set"), e)
    | some _ =>
      let e1 := { e with ring_buffer := some (CaptureBuffer.new RING_BUFFER_SIZE) }
      match AudioEngine.build_stream env with
      | .error err => (.error err, e1)
      | .ok s =>
        if env.play_ok then (.ok (), { e1 with stream := some s })
        else (.error (.Audio "Failed to start stream"), e1)

/-- `AudioEngine::stop_capture`: drops the stream if present, then returns a
freshly created empty vector (source comment: for MVP, return empty vec for
now, proper ring buffer draining to be implemented later) and releases the
ring buffer. It never fails. -/
def AudioEngine.stop_capture (e : AudioEngine) :
    Except MicrodropError (List ℚ) × AudioEngine :=
  let samples : List ℚ := []
  (.ok samples, { e with stream := none, ring_buffer := none })

/-- `AudioEngine::get_stats`: pure function of the (optional) negotiated
config and the sample count; defaults to 44100 Hz and 1 channel when no
config has been negotiated. -/
def AudioEngine.get_stats (e : AudioEngine) (samples : List ℚ) : AudioStats :=
  let sample_rate : Nat := (e.config.map (fun c => c.sample_rate)).getD 44100
  let channels : Nat := (e.config.map (fun c => c.channels)).getD 1
  { duration := (samples.length : ℚ) / ((sample_rate : ℚ) * (channels : ℚ))
    sample_count := samples.length
    sample_rate := sample_rate
    channels := channels
    format := "f32" }

/-- Target output rate, `TARGET_SAMPLE_RATE` in `src/audio/processing.rs`. -/
def TARGET_SAMPLE_RATE : Nat := 16000

/-- Model of `rubato::SincInterpolationType` (variants used or available to
the source). -/
inductive SincInterpolationType where
  | Linear
  | Cubic
  | Nearest
deriving DecidableEq, Repr

/-- Model of `rubato::WindowFunction` (the variant used by the source plus a
representative alternative). -/
inductive WindowFunction where
  | BlackmanHarris2
  | Blackman
deriving DecidableEq, Repr

/-- Model of `rubato::SincInterpolationParameters`. -/
structure SincInterpolationParameters where
  sinc_len : Nat
  f_cutoff : ℚ
  interpolation : SincInterpolationType
  oversampling_factor : Nat
  window : WindowFunction
deriving DecidableEq, Repr

/-- Abstract deterministic model of the external rubato library, per the
external-interface contract: construction from
(ratio, max relative ratio deviation, params, chunk size, channel count) and a
stateful per-channel process step. `σ` is the internal resampler state type. -/
structure RubatoModel (σ : Type) where
  new : ℚ → ℚ → SincInterpolationParameters → Nat → Nat → Except String σ
  process : σ → List (List ℚ) → Except String (List (List ℚ) × σ)

/-- The `AudioProcessor` struct from `src/audio/processing.rs`. -/
structure AudioProcessor (σ : Type) where
  resampler : Option σ
  input_sample_rate : Nat
  input_channels : Nat

/-- The `SincInterpolationParameters` literal built in `AudioProcessor::new`. -/
def audioProcessorSincParams : SincInterpolationParameters :=
  { sinc_len := 256
    f_cutoff := 95 / 100
    interpolation := .Linear
    oversampling_factor := 256
    window := .BlackmanHarris2 }

/-- `AudioProcessor::new`: builds a resampler with ratio target/input, max
relative ratio 2.0, chunk size 1024 and the input channel count precisely when
the input rate differs from 16000. -/
def AudioProcessor.new {σ : Type} (lib : RubatoModel σ)
    (input_sample_rate : Nat) (input_channels : Nat) :
    Except MicrodropError (AudioProcessor σ) :=
  if input_sample_rate ≠ TARGET_SAMPLE_RATE then
    match lib.new ((TARGET_SAMPLE_RATE : ℚ) / (input_sample_rate : ℚ)) 2
        audioProcessorSincParams 1024 input_channels with
    | .ok r => .ok ⟨some r, input_sample_rate, input_channels⟩
    | .error e => .error (.Audio ("Failed to create resampler: " ++ e))
  else
    .ok ⟨none, input_sample_rate, input_channels⟩

/-- The loop body of `AudioProcessor::downmix_to_mono`: emit up to `k` frames
starting at index `start`, guarding each frame with the bounds check of the
source (`end <= interleaved.len()`, with `break` otherwise). -/
def downmixFrames (interleaved : List ℚ) (channels : Nat) : Nat → Nat → List ℚ
  | 0, _ => []
  | k + 1, start =>
    if start + channels ≤ interleaved.length then
      ((interleaved.drop start).take channels).sum / (channels : ℚ)
        :: downmixFrames interleaved channels k (start + channels)
    else
      []

/-- `AudioProcessor::downmix_to_mono`, with the channel count (the only field
of `self` the method reads) passed explicitly: average each of the
`len / channels` complete frames. -/
def downmix_to_mono (channels : Nat) (interleaved : List ℚ) : List ℚ :=
  downmixFrames interleaved channels (interleaved.length / channels) 0

/-- `AudioProcessor::process`: empty input short-circuits; multi-channel input
is downmixed; when a resampler exists and the mono signal is non-empty it is
fed through the library (taking the first output channel), threading the
resampler state. -/
def AudioProcessor.process {σ : Type} (lib : RubatoModel σ)
    (p : AudioProcessor σ) (input : List ℚ) :
    Except MicrodropError (List ℚ × AudioProcessor σ) :=
  if input.isEmpty then
    .ok ([], p)
  else
    let mono_samples :=
      if 1 < p.input_channels then downmix_to_mono p.input_channels input
      else input
    match p.resampler with
    | some r =>
      if mono_samples.isEmpty then
        .ok (mono_samples, p)
      else
        match lib.process r [mono_samples] with
        | .ok (output_channels, r1) =>
          .ok (output_channels.headD [], { p with resampler := some r1 })
        | .error e => .error (.Audio ("Resampling failed: " ++ e))
    | none => .ok (mono_samples, p)

/-- Sequential feeding of chunks through one processor instance, threading the
streaming state, as callers of `process` do for a continuous stream. -/
def AudioProcessor.processChunks {σ : Type} (lib : RubatoModel σ) :
    AudioProcessor σ → List (List ℚ) → Except MicrodropError (List (List ℚ) × AudioProcessor σ)
  | p, [] => .ok ([], p)
  | p, c :: cs =>
    match AudioProcessor.process lib p c with
    | .error e => .error e
    | .ok (out, p1) =>
      match AudioProcessor.processChunks lib p1 cs with
      | .error e => .error e
      | .ok (outs, p2) => .ok (out :: outs, p2)

/-- `AudioProcessor::get_output_sample_rate`. -/
def AudioProcessor.get_output_sample_rate {σ : Type} (_p : AudioProcessor σ) : Nat :=
  TARGET_SAMPLE_RATE

/-- `AudioProcessor::get_output_channels`. -/
def AudioProcessor.get_output_channels {σ : Type} (_p : AudioProcessor σ) : Nat :=
  1

/-- Trivial instantiation of the rubato model (identity pass-through) used to
exercise theorems with hypotheses on concrete inputs. -/
def trivialRubato : RubatoModel Unit :=
  { new := fun _ _ _ _ _ => .ok ()
    process := fun s chans => .ok (chans, s) }

/-- Instantiation of the rubato model whose process step always fails, used to
witness that the resampler is not consulted on sub-frame input. -/
def failingRubato : RubatoModel Unit :=
  { new := fun _ _ _ _ _ => .ok ()
    process := fun _ _ => .error "internal numeric fault" }

/-- Concrete fixture: a single-device host reporting one 8000..48000 Hz mono
range, and a fresh engine on it. -/
def devFixture : AudioDevice := ⟨"mic", [⟨1, 8000, 48000⟩]⟩

/-- Host owning only `devFixture`. -/
def hostFixture : Host := ⟨[devFixture], some devFixture⟩

/-- Fresh engine on `hostFixture` (Idle: no device, config, stream, buffer). -/
def engineFixture : AudioEngine := AudioEngine.new hostFixture

/-- Engine in the Capturing state, its ring buffer holding the result of the
realtime data callback applied to a delivered one-sample block. -/
def capturingFixture : AudioEngine :=
  { host := hostFixture
    device := some devFixture
    config := some ⟨1, 48000⟩
    stream := some AudioStream.mk
    ring_buffer := some (stream_data_callback [1/2] (CaptureBuffer.new RING_BUFFER_SIZE)) }

/-- C7: for every validly constructed processor, processing the empty input
returns the empty output with no error and leaves the processor state
untouched. -/
theorem process_empty_input {σ : Type} (lib : RubatoModel σ) (p : AudioProcessor σ) :
    AudioProcessor.process lib p [] = .ok ([], p) := rfl

/-- C6: a processor constructed with channel count 1 and input rate 16000 is
the identity transform on every non-empty input (and mutates nothing). -/
theorem process_identity_16k_mono {σ : Type} (lib : RubatoModel σ)
    (p : AudioProcessor σ) (hp : AudioProcessor.new lib 16000 1 = .ok p)
    (x : List ℚ) (hx : x ≠ []) :
    AudioProcessor.process lib p x = .ok (x, p) := by
  have hp' : p = ⟨none, 16000, 1⟩ := by
    simp [AudioProcessor.new, TARGET_SAMPLE_RATE] at hp
    exact hp.symm
  subst hp'
  cases x with
  | nil => exact absurd rfl hx
  | cons a l => simp [AudioProcessor.process]

/-- C6 witness: the identity theorem applied to the one-sample input `[1]` on
a concretely constructed 16 kHz mono processor. -/
theorem process_identity_16k_mono_witness :
    AudioProcessor.process trivialRubato ⟨none, 16000, 1⟩ [1] =
      .ok ([1], ⟨none, 16000, 1⟩) :=
  process_identity_16k_mono trivialRubato ⟨none, 16000, 1⟩ rfl [1]
    (List.cons_ne_nil 1 [])

/-- C8: two processors independently constructed with identical parameters
produce identical output sequences on identical sequential chunk inputs. -/
theorem process_deterministic {σ : Type} (lib : RubatoModel σ) (rate ch : Nat)
    (p1 p2 : AudioProcessor σ)
    (h1 : AudioProcessor.new lib rate ch = .ok p1)
    (h2 : AudioProcessor.new lib rate ch = .ok p2)
    (chunks : List (List ℚ)) :
    AudioProcessor.processChunks lib p1 chunks =
      AudioProcessor.processChunks lib p2 chunks := by
  have h12 : p1 = p2 := Except.ok.inj (h1.symm.trans h2)
  rw [h12]

/-- C8 witness: determinism applied to two concretely constructed 44100 Hz
mono processors on the chunk sequence `[[1], [2]]`. -/
theorem process_deterministic_witness :
    AudioProcessor.processChunks trivialRubato
        (⟨some (), 44100, 1⟩ : AudioProcessor Unit) [[1], [2]] =
      AudioProcessor.processChunks trivialRubato
        (⟨some (), 44100, 1⟩ : AudioProcessor Unit) [[1], [2]] :=
  process_deterministic trivialRubato 44100 1 ⟨some (), 44100, 1⟩
    ⟨some (), 44100, 1⟩ rfl rfl [[1], [2]]

/-- C10: with more than one channel and a non-empty input shorter than one
frame, process succeeds with empty output, the downmix yields no samples, and
the resampling filter is never consulted (the processor state is unchanged
and no resampler error can surface). -/
theorem process_short_frame_empty {σ : Type} (lib : RubatoModel σ)
    (p : AudioProcessor σ) (x : List ℚ) (hch : 1 < p.input_channels)
    (hx : 0 < x.length) (hlen : x.length < p.input_channels) :
    AudioProcessor.process lib p x = .ok ([], p) := by
  have hmono : downmix_to_mono p.input_channels x = [] := by
    unfold downmix_to_mono
    rw [Nat.div_eq_of_lt hlen]
    rfl
  cases x with
  | nil => exact absurd hx (by simp)
  | cons a l =>
    cases hr : p.resampler with
    | none => simp [AudioProcessor.process, hch, hmono, hr]
    | some r => simp [AudioProcessor.process, hch, hmono, hr]

/-- C10 witness: a stereo processor holding a resampler whose process step
always fails still returns empty output on the sub-frame input `[1]`. -/
theorem process_short_frame_empty_witness :
    AudioProcessor.process failingRubato
        (⟨some (), 44100, 2⟩ : AudioProcessor Unit) [1] =
      .ok ([], (⟨some (), 44100, 2⟩ : AudioProcessor Unit)) :=
  process_short_frame_empty failingRubato ⟨some (), 44100, 2⟩ [1]
    (by decide) (by decide) (by decide)

/-- C9: with no negotiated configuration, stats computation does not fail and
falls back to a default sample rate of 44100 Hz and channel count 1. -/
theorem get_stats_defaults (e : AudioEngine) (samples : List ℚ)
    (hc : e.config = none) :
    AudioEngine.get_stats e samples =
      { duration := (samples.length : ℚ) / ((44100 : ℚ) * (1 : ℚ))
        sample_count := samples.length
        sample_rate := 44100
        channels := 1
        format := "f32" } := by
  simp [AudioEngine.get_stats, hc]

/-- C9 witness: stats on a fresh, unconfigured engine with two samples uses
the 44100 Hz / 1 channel defaults. -/
theorem get_stats_defaults_witness :
    AudioEngine.get_stats engineFixture [1, 2] =
      { duration := ((([1, 2] : List ℚ).length : ℚ) / ((44100 : ℚ) * (1 : ℚ)))
        sample_count := ([1, 2] : List ℚ).length
        sample_rate := 44100
        channels := 1
        format := "f32" } :=
  get_stats_defaults engineFixture [1, 2] rfl

/-- C5 (code bug): the realtime data callback discards the delivered block
instead of pushing it into the capture buffer, and the engine tracks no
dropped-sample counter; here the delivered one-sample block leaves the fresh
session buffer empty. -/
theorem data_callback_stub_code_bug :
    stream_data_callback [1/2] (CaptureBuffer.new RING_BUFFER_SIZE) =
        CaptureBuffer.new RING_BUFFER_SIZE ∧
    (stream_data_callback [1/2] (CaptureBuffer.new RING_BUFFER_SIZE)).data = [] :=
  ⟨rfl, rfl⟩

/-- C2 (code bug): stopping a capturing session during which the hardware
delivered the block `[1/2]` (far below buffer capacity, so nothing could be
dropped) returns the empty sample sequence: the drain path is a stub that
unconditionally returns a fresh empty vector. -/
theorem stop_capture_stub_code_bug :
    AudioEngine.stop_capture capturingFixture =
      (.ok ([] : List ℚ), { capturingFixture with stream := none, ring_buffer := none }) :=
  rfl

/-- C4 counterexample: on a fresh (Idle) engine, the out-of-order
`start_capture` fails with the generic `Audio` error variant (the error enum
defines no InvalidStateTransition variant at all), and the out-of-order
`stop_capture` does not fail: it succeeds with an empty sample vector. -/
theorem state_errors_counterexample :
    (AudioEngine.start_capture ⟨true, true⟩ engineFixture).1 =
        .error (.Audio "No device selected") ∧
    (AudioEngine.stop_capture engineFixture).1 = .ok ([] : List ℚ) :=
  ⟨rfl, rfl⟩

/-- C4 amended: out-of-order `configure_stream` and `start_capture` fail with
a `MicrodropError.Audio` error and leave the engine state completely
unchanged, while `stop_capture` invoked in any state succeeds, clearing the
stream and buffer fields. -/
theorem state_errors_amended (env : AudioEnv) (e : AudioEngine) :
    (e.device = none →
      AudioEngine.configure_stream e = (.error (.Audio "No device selected"), e)) ∧
    (e.device = none →
      AudioEngine.start_capture env e = (.error (.Audio "No device selected"), e)) ∧
    (∀ d, e.device = some d → e.config = none →
      AudioEngine.start_capture env e = (.error (.Audio "No configuration set"), e)) ∧
    ∃ out, AudioEngine.stop_capture e =
      (.ok out, { e with stream := none, ring_buffer := none }) := by
  refine ⟨?_, ?_, ?_, ⟨[], rfl⟩⟩
  · intro h
    simp [AudioEngine.configure_stream, h]
  · intro h
    simp [AudioEngine.start_capture, h]
  · intro d hd hc
    simp [AudioEngine.start_capture, hd, hc]

/-- C4 amended witness: the fail-closed behaviour exercised on concrete
engines, one with no device and one with a device but no configuration. -/
theorem state_errors_amended_witness :
    AudioEngine.configure_stream engineFixture =
        (.error (.Audio "No device selected"), engineFixture) ∧
    AudioEngine.start_capture ⟨true, true⟩
        { engineFixture with device := some devFixture } =
      (.error (.Audio "No configuration set"),
        { engineFixture with device := some devFixture }) :=
  ⟨(state_errors_amended ⟨true, true⟩ engineFixture).1 rfl,
   (state_errors_amended ⟨true, true⟩
       { engineFixture with device := some devFixture }).2.2.1 devFixture rfl rfl⟩

/-- Unfolding of the downmix loop into an explicit per-frame map: as long as
`k` whole frames fit after `start`, the loop emits for every `i < k` the mean
of the frame beginning at `start + i * channels`. -/
theorem downmixFrames_eq_map (interleaved : List ℚ) (channels : Nat) :
    ∀ (k start : Nat), start + k * channels ≤ interleaved.length →
      downmixFrames interleaved channels k start =
        (List.range k).map (fun i =>
          ((interleaved.drop (start + i * channels)).take channels).sum / (channels : ℚ)) := by
  intro k
  induction k with
  | zero => intro start _; simp [downmixFrames]
  | succ k ih =>
    intro start h
    rw [Nat.succ_mul] at h
    have hstep : start + channels ≤ interleaved.length := by omega
    have hrec := ih (start + channels) (by omega)
    rw [downmixFrames, if_pos hstep, hrec, List.range_succ_eq_map]
    simp only [List.map_cons, List.map_map, Function.comp]
    congr 1
    · simp
    · apply List.map_congr_left
      intro i _
      have harith : start + channels + i * channels = start + (i + 1) * channels := by
        rw [Nat.succ_mul]; omega
      rw [harith]
      simp only [Function.comp_apply]

/-- Indexing helper: the `i`-th entry of mapping a function over `range k`. -/
theorem getD_map_range (f : Nat → ℚ) (k i : Nat) (hi : i < k) :
    ((List.range k).map f).getD i 0 = f i := by
  rw [List.getD_eq_getElem?_getD, List.getElem?_map, List.getElem?_range hi]
  rfl

/-- C1: for every channel count `n ≥ 1` and every input buffer, the downmix
yields exactly `len / n` (floor) output samples, the trailing partial frame
being silently discarded, and the `i`-th output is the arithmetic mean of the
`n` samples of frame `i`. -/
theorem downmix_to_mono_spec (n : Nat) (x : List ℚ) (_hn : 1 ≤ n) :
    (downmix_to_mono n x).length = x.length / n ∧
    ∀ i, i < x.length / n →
      (downmix_to_mono n x).getD i 0 = ((x.drop (i * n)).take n).sum / (n : ℚ) := by
  have hfit : 0 + (x.length / n) * n ≤ x.length := by
    have := Nat.div_mul_le_self x.length n
    omega
  have hmap := downmixFrames_eq_map x n (x.length / n) 0 hfit
  unfold downmix_to_mono
  rw [hmap]
  refine ⟨by simp, ?_⟩
  intro i hi
  rw [getD_map_range _ _ _ hi]
  simp

/-- C1 witness: stereo downmix of the spec example `[1, -1, 1/2]`, whose
trailing partial frame is dropped, gives the single mean `(1 + -1) / 2`. -/
theorem downmix_to_mono_spec_witness :
    (downmix_to_mono 2 [1, -1, 1/2]).length = 1 ∧
    (downmix_to_mono 2 [1, -1, 1/2]).getD 0 0 =
      ((([1, -1, 1/2] : List ℚ).drop 0).take 2).sum / (2 : ℚ) :=
  ⟨(downmix_to_mono_spec 2 [1, -1, 1/2] (by norm_num)).1,
   by simpa using (downmix_to_mono_spec 2 [1, -1, 1/2] (by norm_num)).2 0 (by norm_num)⟩

/-- Characterization of the configuration selection loop: starting from
accumulator `(b, br)`, either no range in the list qualifies above `br` and
the accumulator survives, or the loop returns the first-seen range attaining
the maximal qualifying rate above `br`, with every earlier range strictly
below that rate. -/
theorem selectLoop_spec (l : List SupportedConfigRange) :
    ∀ (b : Option StreamConfig) (br : Nat),
      (selectLoop l b br = b ∧
        ∀ r ∈ l, ¬(16000 ≤ r.max_sample_rate ∧ br < r.max_sample_rate)) ∨
      (∃ i, ∃ h : i < l.length,
        16000 ≤ (l.get ⟨i, h⟩).max_sample_rate ∧
        br < (l.get ⟨i, h⟩).max_sample_rate ∧
        selectLoop l b br = some (l.get ⟨i, h⟩).with_max_sample_rate ∧
        (∀ r ∈ l, 16000 ≤ r.max_sample_rate → br < r.max_sample_rate →
          r.max_sample_rate ≤ (l.get ⟨i, h⟩).max_sample_rate) ∧
        (∀ j, ∀ hj : j < l.length, j < i →
          (l.get ⟨j, hj⟩).max_sample_rate < (l.get ⟨i, h⟩).max_sample_rate)) := by
  induction l with
  | nil =>
    intro b br
    exact Or.inl ⟨rfl, by simp⟩
  | cons c rest ih =>
    intro b br
    by_cases hc : 16000 ≤ c.max_sample_rate ∧ br < c.max_sample_rate
    · have hsel : selectLoop (c :: rest) b br =
          selectLoop rest (some c.with_max_sample_rate) c.max_sample_rate := by
        rw [selectLoop, if_pos hc]
      rcases ih (some c.with_max_sample_rate) c.max_sample_rate with
        ⟨heq, hall⟩ | ⟨i, hi, h16, hgt, heq, hmax, hfirst⟩
      · refine Or.inr ⟨0, Nat.succ_pos _, hc.1, hc.2, by rw [hsel, heq]; rfl, ?_, ?_⟩
        · intro r hr h16r _
          show r.max_sample_rate ≤ c.max_sample_rate
          rcases List.mem_cons.mp hr with rfl | hr
          · exact Nat.le_refl _
          · have := hall r hr
            omega
        · intro j hj hj0
          omega
      · refine Or.inr ⟨i + 1, Nat.succ_lt_succ hi, ?_, ?_, ?_, ?_, ?_⟩
        · simpa using h16
        · simpa using Nat.lt_trans hc.2 hgt
        · rw [hsel]
          simpa using heq
        · intro r hr h16r hbrr
          rcases List.mem_cons.mp hr with rfl | hr
          · simpa using Nat.le_of_lt hgt
          · by_cases hcr : c.max_sample_rate < r.max_sample_rate
            · simpa using hmax r hr h16r hcr
            · have : r.max_sample_rate ≤ c.max_sample_rate := by omega
              have := Nat.lt_of_le_of_lt this hgt
              simpa using Nat.le_of_lt this
        · intro j hj hji
          cases j with
          | zero => simpa using hgt
          | succ j' =>
            have hj' : j' < rest.length := Nat.lt_of_succ_lt_succ hj
            have := hfirst j' hj' (Nat.lt_of_succ_lt_succ hji)
            simpa using this
    · have hsel : selectLoop (c :: rest) b br = selectLoop rest b br := by
        rw [selectLoop, if_neg hc]
      rcases ih b br with ⟨heq, hall⟩ | ⟨i, hi, h16, hgt, heq, hmax, hfirst⟩
      · refine Or.inl ⟨by rw [hsel, heq], ?_⟩
        intro r hr
        rcases List.mem_cons.mp hr with rfl | hr
        · exact hc
        · exact hall r hr
      · refine Or.inr ⟨i + 1, Nat.succ_lt_succ hi, ?_, ?_, ?_, ?_, ?_⟩
        · simpa using h16
        · simpa using hgt
        · rw [hsel]
          simpa using heq
        · intro r hr h16r hbrr
          rcases List.mem_cons.mp hr with rfl | hr
          · exact absurd ⟨h16r, hbrr⟩ hc
          · simpa using hmax r hr h16r hbrr
        · intro j hj hji
          cases j with
          | zero =>
            have h16i : 16000 ≤ (rest.get ⟨i, hi⟩).max_sample_rate := h16
            have hbri : br < (rest.get ⟨i, hi⟩).max_sample_rate := hgt
            show c.max_sample_rate < (rest.get ⟨i, hi⟩).max_sample_rate
            omega
          | succ j' =>
            have hj' : j' < rest.length := Nat.lt_of_succ_lt_succ hj
            have := hfirst j' hj' (Nat.lt_of_succ_lt_succ hji)
            simpa using this

/-- C3: with a device selected, `configure_stream` fails with the
no-suitable-configuration error exactly when no supported configuration
reaches 16000 Hz; otherwise it succeeds, storing the configuration of a
supported range whose max sample rate is at least 16000 Hz, maximal among all
qualifying ranges, with every earlier-enumerated range strictly below that
rate (ties broken by first-seen order). -/
theorem configure_stream_spec (e : AudioEngine) (d : AudioDevice)
    (hd : e.device = some d) (_hne : d.configs ≠ []) :
    (AudioEngine.configure_stream e =
        (.error (.Audio "No suitable audio configuration found"), e) ↔
      ∀ r ∈ d.configs, r.max_sample_rate < 16000) ∧
    ((∃ r ∈ d.configs, 16000 ≤ r.max_sample_rate) →
      ∃ i, ∃ h : i < d.configs.length,
        AudioEngine.configure_stream e =
          (.ok (), { e with
            config := some (d.configs.get ⟨i, h⟩).with_max_sample_rate }) ∧
        16000 ≤ (d.configs.get ⟨i, h⟩).max_sample_rate ∧
        (∀ r ∈ d.configs, 16000 ≤ r.max_sample_rate →
          r.max_sample_rate ≤ (d.configs.get ⟨i, h⟩).max_sample_rate) ∧
        (∀ j, ∀ hj : j < d.configs.length, j < i →
          (d.configs.get ⟨j, hj⟩).max_sample_rate <
            (d.configs.get ⟨i, h⟩).max_sample_rate)) := by
  rcases selectLoop_spec d.configs none 0 with
    ⟨heq, hall⟩ | ⟨i, hi, h16, _, heq, hmax, hfirst⟩
  · constructor
    · constructor
      · intro _ r hr
        have := hall r hr
        omega
      · intro _
        simp [AudioEngine.configure_stream, hd, heq]
    · rintro ⟨r, hr, h16r⟩
      exact absurd ⟨h16r, by omega⟩ (hall r hr)
  · have hmem : d.configs.get ⟨i, hi⟩ ∈ d.configs := List.get_mem _ _ _
    constructor
    · constructor
      · intro hcontra
        have hok : AudioEngine.configure_stream e =
            (.ok (), { e with
              config := some (d.configs.get ⟨i, hi⟩).with_max_sample_rate }) := by
          simp [AudioEngine.configure_stream, hd, heq]
        rw [hok] at hcontra
        simp at hcontra
      · intro hall'
        have := hall' _ hmem
        omega
    · intro _
      refine ⟨i, hi, ?_, h16, ?_, ?_⟩
      · simp [AudioEngine.configure_stream, hd, heq]
      · intro r hr h16r
        exact hmax r hr h16r (by omega)
      · intro j hj hji
        exact hfirst j hj hji

/-- Device fixture whose only supported range tops out below 16 kHz. -/
def lowRateDev : AudioDevice := ⟨"telephone", [⟨1, 8000, 8000⟩]⟩

/-- Engine with `lowRateDev` selected and nothing else negotiated. -/
def lowRateEngine : AudioEngine :=
  { AudioEngine.new ⟨[lowRateDev], some lowRateDev⟩ with device := some lowRateDev }

/-- C3 witness: negotiation on a concrete device topping out at 8 kHz fails
with the no-suitable-configuration error, by the iff of the claim theorem. -/
theorem configure_stream_spec_witness :
    AudioEngine.configure_stream lowRateEngine =
      (.error (.Audio "No suitable audio configuration found"), lowRateEngine) :=
  (configure_stream_spec lowRateEngine lowRateDev rfl (by decide)).1.mpr
    (by
      intro r hr
      simp [lowRateDev] at hr
      subst hr
      decide)
